import Mathlib

/-!
Verification development for the OR link channel layer: a shallow embedding
of `src/or/channel.c` (channel state machine, refcount, queues, handler
dispatch, listener path) and the link-handshake engine of
`src/or/channeltls.c` (VERSIONS / CERTS / AUTH_CHALLENGE / AUTHENTICATE /
NETINFO processing), together with theorems settling the specification
claims about them.

Modelling conventions:
* C functions become pure Lean functions on explicit state records.
* A `tor_assert` failure (or a dereference of a NULL pointer that the code
  assumes non-NULL) is modelled as the result `none` of an `Option`.
* Calls into out-of-scope collaborator subsystems (circuit layer, transport
  write methods, logging-free side effects such as `connection_mark_for_close`
  on the connection or `connection_or_send_*`) are recorded as events in a
  trace list, and their success/failure outcomes are parameters gathered in
  environment records, so every theorem quantifies over collaborator
  behaviour.
* Lazily-allocated smartlists (`cell_queue`, `outgoing_queue`,
  `incoming_list`) are `Option (List _)`: `none` is the NULL pointer,
  `some []` an allocated empty list, matching the C distinction.
* Handler slots and function-pointer fields are modelled by `Bool` presence
  flags (NULL vs non-NULL); invoking a handler is recorded as a trace event
  carrying the cell handed over.  Global registry smartlists and log calls
  are omitted: no claim mentions them, and they do not feed back into any
  modelled control flow.
-/

/-- Channel states of `channel_state_t` (`CHANNEL_STATE_*`). The sentinel
`CHANNEL_STATE_LAST` is not a state and is not modelled. -/
inductive ChannelState where
  | closed
  | closing
  | error
  | listening
  | maint
  | opening
  | open
deriving DecidableEq

/-- Close reasons of `channel_t.reason_for_closing`. -/
inductive CloseReason where
  | notClosing
  | requested
  | fromBelow
  | forError
deriving DecidableEq

/-- Fixed-length cell `cell_t`: circuit id, command byte, payload bytes.
The C payload is a fixed `CELL_PAYLOAD_SIZE` array; reads beyond the
modelled list return the zero byte (`List.getD`), matching a zero-padded
cell. -/
structure Cell where
  circ_id : Nat
  command : Nat
  payload : List Nat
deriving DecidableEq

/-- Variable-length cell `var_cell_t`; `payload_len` is `payload.length`. -/
structure VarCell where
  circ_id : Nat
  command : Nat
  payload : List Nat
deriving DecidableEq

/-- Inbound/outbound queue entry `cell_queue_entry_t`: tagged union of an
owned fixed cell or an owned variable-length cell. -/
inductive QEntry where
  | fixed (c : Cell)
  | var (v : VarCell)
deriving DecidableEq

/-- A channel queued on a listener's `incoming_list`.  Only the fields the
listener path reads or writes are modelled. -/
structure Child where
  state : ChannelState
  initiated_remotely : Bool
deriving DecidableEq

/-- Trace events: callbacks invoked and collaborator calls made by the
channel-layer functions, in program order. -/
inductive Ev where
  | evRef
  | evUnref
  | evRefChild
  | evUnrefChild
  | evFixedHandler (c : Cell)
  | evVarHandler (v : VarCell)
  | evListener (initiatedRemotely : Bool)
  | evFree
  | evWriteCell (c : Cell)
  | evWriteVarCell (v : VarCell)
  | evCircNChanDone (ok : Nat)
  | evUnlinkAllCircuits
  | evNetworkLive
  | evNoteConnectSucceeded
  | evRouterSetStatus
deriving DecidableEq

/-- Remote-identity digest length `DIGEST_LEN`. -/
def DIGEST_LEN : Nat := 20

/-- The channel record `channel_t`; fields not read or written by any
modelled operation (timestamps, `next_circ_id`, `dirreq_id`, the scheduler
pqueue, the transport method pointers, `global_identifier`) are omitted. -/
structure Channel where
  state : ChannelState
  refcount : Nat
  registered : Bool
  reason_for_closing : CloseReason
  initiated_remotely : Bool
  cell_handler : Bool
  var_cell_handler : Bool
  listener : Bool
  cell_queue : Option (List QEntry)
  outgoing_queue : Option (List QEntry)
  incoming_list : Option (List Child)
  identity_digest : List Nat
  nickname : Option (List Nat)
deriving DecidableEq

/-- Result of an operation that may release the channel record. -/
inductive UnrefRes where
  | freed
  | live (ch : Channel)
deriving DecidableEq

/-- Test whether a lazily allocated queue is non-NULL and non-empty,
as in the C idiom `q && smartlist_len(q) > 0`. -/
def queueNonempty (q : Option (List QEntry)) : Bool :=
  match q with
  | some (_ :: _) => true
  | _ => false

/-- The same test for a listener's `incoming_list`. -/
def incomingNonempty (q : Option (List Child)) : Bool :=
  match q with
  | some (_ :: _) => true
  | _ => false

/-- Whether the state counts as finished/terminal (`CLOSED` or `ERROR`). -/
def isTerminal (s : ChannelState) : Bool :=
  s = ChannelState.closed ∨ s = ChannelState.error

/-- Source function `channel_state_is_valid` of channel.c. All seven modelled states are
valid (the C function returns 0 only for `CHANNEL_STATE_LAST` / garbage). -/
def channel_state_is_valid (_ : ChannelState) : Bool := true

/-- Source function `channel_state_can_transition` of channel.c: the hand-written switch
over the `from` state. -/
def channel_state_can_transition (f t : ChannelState) : Bool :=
  match f with
  | .closed => t = ChannelState.listening ∨ t = ChannelState.opening
  | .closing => t = ChannelState.closed ∨ t = ChannelState.error
  | .error => false
  | .listening => t = ChannelState.closing ∨ t = ChannelState.error
  | .maint => t = ChannelState.closing ∨ t = ChannelState.error ∨ t = ChannelState.open
  | .opening => t = ChannelState.closing ∨ t = ChannelState.error ∨ t = ChannelState.open
  | .open => t = ChannelState.closing ∨ t = ChannelState.error ∨ t = ChannelState.maint

/-- Source function `channel_ref`: increment the refcount, return the channel. -/
def channel_ref (ch : Channel) : Channel :=
  { ch with refcount := ch.refcount + 1 }

/-- Source function `channel_clear_remote_end`: zero the identity digest, free the
nickname. -/
def channel_clear_remote_end (ch : Channel) : Channel :=
  { ch with identity_digest := List.replicate DIGEST_LEN 0, nickname := none }

/-- Source function `channel_free`: asserts terminal state, deregistered, zero refcount,
then invokes the subclass free method, clears the remote end and releases
the record.  Note the source has NO assertion that the three queues are
empty (there is a `TODO cell queue?` comment where the inbound queue should
be released).  A successful call returns the trace of the release. -/
def channel_free (ch : Channel) : Option (List Ev) :=
  if isTerminal ch.state then
    if ch.registered = false then
      if ch.refcount = 0 then
        some [Ev.evFree]
      else none
    else none
  else none

/-- Source function `channel_unref`: asserts `refcount > 0`, decrements, and frees when
the count reaches zero on an unregistered channel in terminal state. -/
def channel_unref (ch : Channel) : Option UnrefRes :=
  if ch.refcount = 0 then none
  else
    let ch' := { ch with refcount := ch.refcount - 1 }
    if ch'.refcount = 0 ∧ ch'.registered = false ∧ isTerminal ch'.state then
      (channel_free ch').map (fun _ => UnrefRes.freed)
    else some (UnrefRes.live ch')

/-- Source function `channel_unregister`: no-op when not registered; otherwise remove from
the registry lists, clear `registered`, and free when the refcount is zero
and the state is terminal. -/
def channel_unregister (ch : Channel) : Option UnrefRes :=
  if ch.registered = false then some (UnrefRes.live ch)
  else
    let ch' := { ch with registered := false }
    if ch'.refcount = 0 ∧ isTerminal ch'.state then
      (channel_free ch').map (fun _ => UnrefRes.freed)
    else some (UnrefRes.live ch')

/-- The dispatch loop body of `channel_process_cells`: dispatch queue
entries in FIFO order while the handler matching the entry's tag is
installed; stop at the first entry without a matching handler.  Returns the
remaining queue and the dispatch trace. -/
def drainCells (fixedH varH : Bool) : List QEntry → List QEntry × List Ev
  | [] => ([], [])
  | QEntry.fixed c :: rest =>
    if fixedH then
      let r := drainCells fixedH varH rest
      (r.1, Ev.evFixedHandler c :: r.2)
    else (QEntry.fixed c :: rest, [])
  | QEntry.var v :: rest =>
    if varH then
      let r := drainCells fixedH varH rest
      (r.1, Ev.evVarHandler v :: r.2)
    else (QEntry.var v :: rest, [])

/-- Source function `channel_process_cells`: asserts state in {CLOSING, MAINT, OPEN};
returns immediately when no handler is installed or no queue exists;
otherwise brackets the drain loop in `channel_ref`/`channel_unref` and
releases the queue storage once empty.  The state assertion makes the
final `channel_unref` provably non-freeing, but the call is modelled
faithfully. -/
def channel_process_cells (ch : Channel) : Option (Channel × List Ev) :=
  if ¬(ch.state = ChannelState.closing ∨ ch.state = ChannelState.maint ∨
       ch.state = ChannelState.open) then none
  else if ¬(ch.cell_handler || ch.var_cell_handler) then some (ch, [])
  else
    match ch.cell_queue with
    | none => some (ch, [])
    | some q =>
      let ch1 := channel_ref ch
      let r := drainCells ch.cell_handler ch.var_cell_handler q
      let ch2 := { ch1 with cell_queue := if r.1.isEmpty then none else some r.1 }
      match channel_unref ch2 with
      | some (UnrefRes.live ch3) => some (ch3, Ev.evRef :: r.2 ++ [Ev.evUnref])
      | _ => none

/-- Source function `channel_queue_cell`: asserts state OPEN; dispatches directly (bracketed
by ref/unref) when the fixed-cell handler is set and the pending queue is
empty, otherwise appends and drives the queue if any handler is set. -/
def channel_queue_cell (ch : Channel) (c : Cell) : Option (Channel × List Ev) :=
  if ¬(ch.state = ChannelState.open) then none
  else
    let need : Bool := !ch.cell_handler || queueNonempty ch.cell_queue
    let ch := if need && ch.cell_queue = none then { ch with cell_queue := some [] } else ch
    if need = false then
      if ch.cell_handler = false then none
      else
        match channel_unref (channel_ref ch) with
        | some (UnrefRes.live ch2) =>
          some (ch2, [Ev.evRef, Ev.evFixedHandler c, Ev.evUnref])
        | _ => none
    else
      let q := (ch.cell_queue.getD []) ++ [QEntry.fixed c]
      let ch' := { ch with cell_queue := some q }
      if ch'.cell_handler || ch'.var_cell_handler then channel_process_cells ch'
      else some (ch', [])

/-- Source function `channel_queue_var_cell`: asserts state OPEN; dispatches directly when
the variable-cell handler is set and the pending queue is empty — but the
direct path of the source asserts `chan->cell_handler` (the FIXED-handler
slot) before invoking `chan->var_cell_handler`, and that assertion is
modelled as written. -/
def channel_queue_var_cell (ch : Channel) (v : VarCell) : Option (Channel × List Ev) :=
  if ¬(ch.state = ChannelState.open) then none
  else
    let need : Bool := !ch.var_cell_handler || queueNonempty ch.cell_queue
    let ch := if need && ch.cell_queue = none then { ch with cell_queue := some [] } else ch
    if need = false then
      if ch.cell_handler = false then none
      else
        match channel_unref (channel_ref ch) with
        | some (UnrefRes.live ch2) =>
          some (ch2, [Ev.evRef, Ev.evVarHandler v, Ev.evUnref])
        | _ => none
    else
      let q := (ch.cell_queue.getD []) ++ [QEntry.var v]
      let ch' := { ch with cell_queue := some q }
      if ch'.cell_handler || ch'.var_cell_handler then channel_process_cells ch'
      else some (ch', [])

/-- Source function `channel_set_var_cell_handler`: asserts state in {OPENING, OPEN, MAINT};
installs the new handler and re-runs the queue when the slot changed to a
non-NULL handler and queued cells exist. -/
def channel_set_var_cell_handler (ch : Channel) (h : Bool) : Option (Channel × List Ev) :=
  if ¬(ch.state = ChannelState.opening ∨ ch.state = ChannelState.open ∨
       ch.state = ChannelState.maint) then none
  else
    let changed : Bool := h != ch.var_cell_handler
    let ch' := { ch with var_cell_handler := h }
    if queueNonempty ch'.cell_queue && changed && h then channel_process_cells ch'
    else some (ch', [])

/-- Source function `channel_set_cell_handler`: the fixed-handler analogue. -/
def channel_set_cell_handler (ch : Channel) (h : Bool) : Option (Channel × List Ev) :=
  if ¬(ch.state = ChannelState.opening ∨ ch.state = ChannelState.open ∨
       ch.state = ChannelState.maint) then none
  else
    let changed : Bool := h != ch.cell_handler
    let ch' := { ch with cell_handler := h }
    if queueNonempty ch'.cell_queue && changed && h then channel_process_cells ch'
    else some (ch', [])

/-- Collaborator outcomes consumed by `channel_do_open_actions`. -/
structure ChanEnv where
  guard_reject : Bool

/-- Source function `channel_do_open_actions`: on a locally initiated channel, note network
liveness and connect success; if the entry-guard subsystem rejects the
guard, cancel pending circuits (`circuit_n_chan_done(chan, 0)`) but keep
the channel; set the router status.  The remotely-initiated branch's geoip
call is commented out in the source.  Finally notify pending circuits of
success unless suppressed. -/
def channel_do_open_actions (env : ChanEnv) (ch : Channel) : Channel × List Ev :=
  if ch.initiated_remotely = false then
    let evs1 := [Ev.evNetworkLive, Ev.evNoteConnectSucceeded]
    if env.guard_reject then
      (ch, evs1 ++ [Ev.evCircNChanDone 0, Ev.evRouterSetStatus])
    else
      (ch, evs1 ++ [Ev.evRouterSetStatus, Ev.evCircNChanDone 1])
  else
    (ch, [Ev.evCircNChanDone 1])

/-- Modelled from the spec: `channel_flush_cells` is declared and called in
channel.c but its definition is not among the provided sources.  Per
§4.2/§4.4 it hands every queued outgoing cell to the transport write method
in order and releases the queue. -/
def channel_flush_cells (ch : Channel) : Channel × List Ev :=
  match ch.outgoing_queue with
  | none => (ch, [])
  | some q =>
    ({ ch with outgoing_queue := none },
     q.map (fun e => match e with
       | QEntry.fixed c => Ev.evWriteCell c
       | QEntry.var v => Ev.evWriteVarCell v))

/-- Source function `channel_change_state`: asserts both states valid and the transition
allowed by the table; asserts `reason_for_closing` set on entry to
CLOSING/CLOSED/ERROR; installs the new state; on entry to OPEN performs the
open-time actions and drains both queues; on entry to CLOSED asserts all
three queues empty.  (The self-transition no-op check of the source is kept
although the transition table makes it unreachable: it sits after the
`channel_state_can_transition` assertion.) -/
def channel_change_state (env : ChanEnv) (ch : Channel) (to_state : ChannelState) :
    Option (Channel × List Ev) :=
  if ¬channel_state_is_valid ch.state then none
  else if ¬channel_state_is_valid to_state then none
  else if ¬channel_state_can_transition ch.state to_state then none
  else if ch.state = to_state then some (ch, [])
  else if (to_state = ChannelState.closing ∨ to_state = ChannelState.closed ∨
           to_state = ChannelState.error) ∧
          ch.reason_for_closing = CloseReason.notClosing then none
  else
    let ch := { ch with state := to_state }
    if to_state = ChannelState.open then
      let r1 := channel_do_open_actions env ch
      match (if queueNonempty r1.1.cell_queue then channel_process_cells r1.1
             else some (r1.1, [])) with
      | none => none
      | some (ch2, evs2) =>
        let r3 := if queueNonempty ch2.outgoing_queue then channel_flush_cells ch2
                  else (ch2, [])
        some (r3.1, r1.2 ++ evs2 ++ r3.2)
    else if to_state = ChannelState.closed then
      if queueNonempty ch.cell_queue then none
      else if queueNonempty ch.outgoing_queue then none
      else if incomingNonempty ch.incoming_list then none
      else some (ch, [])
    else some (ch, [])

/-- Source function `channel_close_for_error`: no-op when already CLOSING/CLOSED/ERROR;
otherwise record reason `FOR_ERROR` and transition to CLOSING (no transport
`close` call — the lower layer already knows). -/
def channel_close_for_error (env : ChanEnv) (ch : Channel) : Option (Channel × List Ev) :=
  if ch.state = ChannelState.closing ∨ ch.state = ChannelState.closed ∨
     ch.state = ChannelState.error then some (ch, [])
  else
    channel_change_state env { ch with reason_for_closing := CloseReason.forError }
      ChannelState.closing

/-- Source function `channel_closed`: asserts CLOSING/CLOSED/ERROR; no-op if already
terminal; for an erroring channel notify pending circuits of failure; unlink
attached circuits; then transition to CLOSED, or to ERROR when the reason
was `FOR_ERROR`. -/
def channel_closed (env : ChanEnv) (ch : Channel) : Option (Channel × List Ev) :=
  if ¬(ch.state = ChannelState.closing ∨ ch.state = ChannelState.closed ∨
       ch.state = ChannelState.error) then none
  else if ch.state = ChannelState.closed ∨ ch.state = ChannelState.error then some (ch, [])
  else
    let evs := (if ch.reason_for_closing = CloseReason.forError then [Ev.evCircNChanDone 0]
                else []) ++ [Ev.evUnlinkAllCircuits]
    let target := if ch.reason_for_closing = CloseReason.forError then ChannelState.error
                  else ChannelState.closed
    match channel_change_state env ch target with
    | none => none
    | some (ch', evs2) => some (ch', evs ++ evs2)

/-- Source function `channel_process_incoming`: asserts the listener is LISTENING (or
CLOSING, to drain a backlog) and has a listener callback; returns if no
backlog list exists; otherwise, holding a ref on the listener, dispatches
each queued child in order — forcing `initiated_remotely` to 1 on each child
before the callback, bracketing each callback with a ref/unref on the child
— then releases the emptied list. -/
def channel_process_incoming (listener : Channel) : Option (Channel × List Ev) :=
  if ¬(listener.state = ChannelState.listening ∨ listener.state = ChannelState.closing)
    then none
  else if listener.listener = false then none
  else
    match listener.incoming_list with
    | none => some (listener, [])
    | some l =>
      let childEvs := l.flatMap
        (fun _ => [Ev.evRefChild, Ev.evListener true, Ev.evUnrefChild])
      let ch1 := channel_ref { listener with incoming_list := some [] }
      match channel_unref { ch1 with incoming_list := none } with
      | some (UnrefRes.live ch2) => some (ch2, Ev.evRef :: childEvs ++ [Ev.evUnref])
      | _ => none

/-- Source function `channel_queue_incoming`: asserts the listener is LISTENING and the
child is not; invokes the listener callback directly (refs held on both)
when a callback is installed and no backlog exists — note the direct path
passes the child with its `initiated_remotely` flag UNCHANGED — otherwise
appends to `incoming_list` and drains via `channel_process_incoming` when a
callback is installed. -/
def channel_queue_incoming (listener : Channel) (incoming : Child) :
    Option (Channel × List Ev) :=
  if ¬(listener.state = ChannelState.listening) then none
  else if incoming.state = ChannelState.listening then none
  else
    let need : Bool := !listener.listener || incomingNonempty listener.incoming_list
    let listener :=
      if need && listener.incoming_list = none then { listener with incoming_list := some [] }
      else listener
    if need = false then
      if listener.listener = false then none
      else
        match channel_unref (channel_ref listener) with
        | some (UnrefRes.live l2) =>
          some (l2, [Ev.evRef, Ev.evRefChild, Ev.evListener incoming.initiated_remotely,
                     Ev.evUnrefChild, Ev.evUnref])
        | _ => none
    else
      let l := (listener.incoming_list.getD []) ++ [incoming]
      let listener' := { listener with incoming_list := some l }
      if listener'.listener then channel_process_incoming listener'
      else some (listener', [])

/-!
The link-handshake engine of channeltls.c.  The engine runs below the
channel layer on an OR connection; its calls back into the channel/
connection layers (`connection_mark_for_close`, `channel_change_state`,
`connection_or_send_*`, `connection_or_set_state_open`,
`connection_or_set_circid_type`, `connection_or_init_conn_from_address`,
controller events) are recorded as `TlsEv` trace events, in program order.
`connection_mark_for_close` additionally sets the connection's
`marked_for_close` flag.
-/

/-- OR connection states relevant to the handshake engine
(`OR_CONN_STATE_*`). -/
inductive OrConnState where
  | tlsHandshaking
  | tlsServerRenegotiating
  | orHandshakingV2
  | orHandshakingV3
  | connOpen
deriving DecidableEq

/-- The per-connection handshake state `or_handshake_state_t` (fields the
modelled cell processors read or write).  Retained certificates are
presence flags. -/
structure HandshakeState where
  received_versions : Bool
  received_certs_cell : Bool
  received_auth_challenge : Bool
  received_authenticate : Bool
  authenticated : Bool
  started_here : Bool
  auth_cert : Bool
  id_cert : Bool
  digest_received_data : Bool
  authenticated_peer_id : List Nat
  sent_versions_at : Int
deriving DecidableEq

/-- The OR connection fields the engine reads or writes. -/
structure OrConn where
  state : OrConnState
  link_proto : Nat
  marked_for_close : Bool
  is_canonical : Bool
  handshake_state : Option HandshakeState
deriving DecidableEq

/-- Collaborator calls made by the handshake engine, in program order. -/
inductive TlsEv where
  | markForClose
  | chanChangeState (s : ChannelState)
  | sendVersions
  | sendCerts
  | sendAuthChallenge
  | sendNetinfo
  | sendAuthenticate
  | setStateOpen
  | setCircidType
  | initConnFromAddress
  | controllerClockSkew
deriving DecidableEq

/-- The common protocol-error epilogue of the engine:
`connection_mark_for_close(TO_CONN(chan->conn))` followed by
`channel_change_state(TLS_CHAN_TO_BASE(chan), CHANNEL_STATE_ERROR)`. -/
def closeEvs : List TlsEv := [TlsEv.markForClose, TlsEv.chanChangeState ChannelState.error]

/-- Apply the protocol-error epilogue to a connection. -/
def markAndError (conn : OrConn) : OrConn × List TlsEv :=
  ({ conn with marked_for_close := true }, closeEvs)

/-- Read a network-order u16 from payload bytes at offset `i`
(`ntohs(get_uint16(cp))`); bytes past the end read as zero. -/
def readU16 (l : List Nat) (i : Nat) : Nat :=
  256 * l.getD i 0 + l.getD (i + 1) 0

/-- Read a network-order u32 from payload bytes at offset `i`. -/
def readU32 (l : List Nat) (i : Nat) : Nat :=
  16777216 * l.getD i 0 + 65536 * l.getD (i + 1) 0 + 256 * l.getD (i + 2) 0 +
    l.getD (i + 3) 0

/-- The u16 values scanned by the VERSIONS loop
`for (cp = cell->payload; cp+1 < end; ++cp)`: the loop advances one BYTE at
a time, so it reads an overlapping u16 at every offset `i` with
`i + 1 < payload_len`. -/
def scanU16s (l : List Nat) : List Nat :=
  (List.range (l.length - 1)).map (fun i => readU16 l i)

/-- The highest version accepted by the VERSIONS loop: the largest scanned
u16 that `is_or_protocol_version_known` accepts, 0 when none is. -/
def highestKnown (isKnown : Nat → Bool) (l : List Nat) : Nat :=
  (scanU16s l).foldl (fun acc v => if isKnown v ∧ acc < v then v else acc) 0

/-- The reading the specification describes for a VERSIONS payload: a
sequence of non-overlapping big-endian u16 version numbers (any trailing
odd byte ignored). -/
def specVersionList : List Nat → List Nat
  | a :: b :: rest => (256 * a + b) :: specVersionList rest
  | _ => []

/-- The version the specification's reading selects: the highest listed
version that we support, 0 when the intersection is empty. -/
def specHighestVersion (isKnown : Nat → Bool) (l : List Nat) : Nat :=
  (specVersionList l).foldl (fun acc v => if isKnown v ∧ acc < v then v else acc) 0

/-- Collaborator outcomes consumed by
`channel_tls_process_versions_cell`: the version filter
`is_or_protocol_version_known`, `connection_or_nonopen_was_started_here`,
`public_server_mode(get_options())`, and the return codes of the four
`connection_or_send_*` helpers. -/
structure VersEnv where
  isKnown : Nat → Bool
  started_here : Bool
  public_server : Bool
  send_versions_ok : Bool
  send_certs_ok : Bool
  send_chall_ok : Bool
  send_netinfo_ok : Bool

/-- The sequential conditional sends at the end of the v3 branch of
`channel_tls_process_versions_cell`: each entry is (condition, attempted
send, send succeeded); the first failing send marks the connection and
moves the channel to ERROR, abandoning the rest. -/
def trySends (conn : OrConn) : List (Bool × TlsEv × Bool) → OrConn × List TlsEv
  | [] => (conn, [])
  | (doIt, ev, ok) :: rest =>
    if doIt then
      if ok then
        let r := trySends conn rest
        (r.1, ev :: r.2)
      else ({ conn with marked_for_close := true }, ev :: closeEvs)
    else trySends conn rest

/-- Source function `channel_tls_process_versions_cell`: drop the cell when a version is
already negotiated or on an unexpected connection state; otherwise scan the
payload (see `highestKnown`), close on no usable version, on v1, or on a
sub-3 selection after a v3 TLS handshake; on success record `link_proto`
and `received_versions`, then either send NETINFO (v2) or the conditional
VERSIONS/CERTS/AUTH_CHALLENGE/NETINFO sequence (v3). -/
def channel_tls_process_versions_cell (env : VersEnv) (cell : VarCell) (conn : OrConn) :
    Option (OrConn × List TlsEv) :=
  if conn.link_proto ≠ 0 ∨
     (conn.handshake_state.elim false HandshakeState.received_versions) = true
    then some (conn, [])
  else if ¬(conn.state = OrConnState.orHandshakingV2 ∨
            conn.state = OrConnState.orHandshakingV3) then some (conn, [])
  else
    match conn.handshake_state with
    | none => none
    | some hs =>
      let best := highestKnown env.isKnown cell.payload
      if best = 0 then some (markAndError conn)
      else if best = 1 then some (markAndError conn)
      else if best < 3 ∧ conn.state = OrConnState.orHandshakingV3 then
        some (markAndError conn)
      else
        let hs' := { hs with received_versions := true }
        let conn := { conn with link_proto := best, handshake_state := some hs' }
        if conn.link_proto = 2 then
          if env.send_netinfo_ok then some (conn, [TlsEv.sendNetinfo])
          else some ({ conn with marked_for_close := true }, TlsEv.sendNetinfo :: closeEvs)
        else
          if conn.link_proto < 3 then none
          else
            some (trySends conn
              [(!env.started_here, TlsEv.sendVersions, env.send_versions_ok),
               (!env.started_here || env.public_server, TlsEv.sendCerts, env.send_certs_ok),
               (!env.started_here && env.public_server, TlsEv.sendAuthChallenge,
                env.send_chall_ok),
               (!env.started_here, TlsEv.sendNetinfo, env.send_netinfo_ok)])

/-- Fixed-cell payload size `CELL_PAYLOAD_SIZE`. -/
def CELL_PAYLOAD_SIZE : Nat := 509

/-- Modelled from the spec: the challenge length `OR_AUTH_CHALLENGE_LEN` is
defined in or.h, which is not among the provided sources; §6.4 gives the
AUTH_CHALLENGE body as `challenge: [u8; OR_AUTH_CHALLENGE_LEN]` followed by
the method list.  The concrete value (32 in the deployed protocol) only
matters for evaluating witnesses; no claim depends on it. -/
def OR_AUTH_CHALLENGE_LEN : Nat := 32

/-- Modelled from the spec: `V3_AUTH_BODY_LEN`, the length of the fixed
part of an AUTHENTICATE body (§6.5), is defined in or.h (not provided).
The concrete value (128 deployed) only matters for witnesses. -/
def V3_AUTH_BODY_LEN : Nat := 128

/-- Digest length `DIGEST256_LEN`. -/
def DIGEST256_LEN : Nat := 32

/-- Authentication method code `AUTHTYPE_RSA_SHA256_TLSSECRET`. -/
def AUTHTYPE_RSA_SHA256_TLSSECRET : Nat := 1

/-- Collaborator outcomes consumed by
`channel_tls_process_netinfo_cell`: the clock, the router-db lookups on the
peer identity, the shared address codec `decode_address_from_payload`
(given the remaining payload bytes, an address value and the number of
bytes consumed, or `none` for a malformed record), the `real_addr`
comparison, and the return code of `connection_or_set_state_open`. -/
structure NetinfoEnv where
  now : Int
  routerKnown : Bool
  trustedDir : Bool
  decodeAddr : List Nat → Option (Nat × Nat)
  realAddrMatches : Nat → Bool
  set_state_open_ok : Bool

/-- The "other addresses" loop of `channel_tls_process_netinfo_cell`:
starting at offset `cp` with `n` records left, decode records until one
equals `real_addr` (the connection becomes canonical), the count runs out,
or the read pointer passes `end - 2`; a malformed record (`none` from the
codec) is a protocol error. -/
def netinfoScanAddrs (env : NetinfoEnv) (payload : List Nat) : Nat → Nat → Option Bool
  | 0, _ => some false
  | Nat.succ n, cp =>
    if cp + 2 < CELL_PAYLOAD_SIZE then
      match env.decodeAddr (payload.drop cp) with
      | none => none
      | some (addr, used) =>
        if env.realAddrMatches addr then some true
        else netinfoScanAddrs env payload n (cp + used)
    else some false

/-- Source function `channel_tls_process_netinfo_cell`: drop when no v2+ version is
negotiated or the connection is not in a handshaking state; assert the
handshake state exists with `received_versions` set; in the v3 handshake a
client (`started_here`) requires the peer already authenticated (else
close), while an unauthenticated server scrubs peer-id state
(`connection_or_set_circid_type(NULL)` and re-init from address); then
decode the body, closing on overlong addresses or a malformed "other
address"; record canonicity and apparent skew; finally mark the OR
connection open. -/
def channel_tls_process_netinfo_cell_hs (env : NetinfoEnv) (cell : Cell) (conn : OrConn)
    (hs : HandshakeState) : Option (OrConn × List TlsEv) :=
      if hs.received_versions = false then none
      else if conn.state = OrConnState.orHandshakingV3 ∧ conn.link_proto < 3 then none
      else if conn.state = OrConnState.orHandshakingV3 ∧ hs.started_here = true ∧
              hs.authenticated = false then
        some (markAndError conn)
      else if conn.state = OrConnState.orHandshakingV3 ∧ hs.started_here = false ∧
              hs.authenticated = false ∧
              hs.authenticated_peer_id ≠ List.replicate DIGEST_LEN 0 then none
      else
        let v3evs : List TlsEv :=
          if conn.state = OrConnState.orHandshakingV3 ∧ hs.started_here = false ∧
             hs.authenticated = false then
            [TlsEv.setCircidType, TlsEv.initConnFromAddress]
          else []
        let timestamp := readU32 cell.payload 0
        let apparent_skew : Int :=
          if (env.now - hs.sent_versions_at).natAbs < 180 then env.now - (timestamp : Int)
          else 0
        let my_addr_len := cell.payload.getD 5 0
        let cp := 6 + my_addr_len
        if CELL_PAYLOAD_SIZE ≤ cp then
          some ({ conn with marked_for_close := true }, v3evs ++ closeEvs)
        else
          let n_other := cell.payload.getD cp 0
          match netinfoScanAddrs env cell.payload n_other (cp + 1) with
          | none => some ({ conn with marked_for_close := true }, v3evs ++ closeEvs)
          | some canonical =>
            let conn := if canonical then { conn with is_canonical := true } else conn
            let skewEvs : List TlsEv :=
              if 3600 < apparent_skew.natAbs ∧ env.routerKnown = true ∧
                 env.trustedDir = true then [TlsEv.controllerClockSkew]
              else []
            if env.set_state_open_ok = false then
              some ({ conn with marked_for_close := true }, v3evs ++ skewEvs ++ closeEvs)
            else
              some ({ conn with state := OrConnState.connOpen },
                    v3evs ++ skewEvs ++ [TlsEv.setStateOpen])

/-- Source function `channel_tls_process_netinfo_cell`: the early drops, the handshake
state assertion (with `received_versions` checked in the inner function),
and the processing of the body. -/
def channel_tls_process_netinfo_cell (env : NetinfoEnv) (cell : Cell) (conn : OrConn) :
    Option (OrConn × List TlsEv) :=
  if conn.link_proto < 2 then some (conn, [])
  else if ¬(conn.state = OrConnState.orHandshakingV2 ∨
            conn.state = OrConnState.orHandshakingV3) then some (conn, [])
  else
    match conn.handshake_state with
    | none => none
    | some hs => channel_tls_process_netinfo_cell_hs env cell conn hs

/-- Collaborator outcomes consumed by
`channel_tls_process_auth_challenge_cell`. -/
structure AuthChallengeEnv where
  public_server : Bool
  send_authenticate_ok : Bool
  send_netinfo_ok : Bool

/-- Source function `channel_tls_process_auth_challenge_cell`: reject (mark + ERROR) unless
we are in the v3 handshake with link_proto ≥ 3, we originated the
connection, no challenge was seen yet, a CERTS cell WAS seen, and the body
is well-formed with a zero circuit id; record the challenge; a public
server answers with AUTHENTICATE (when `RSA_SHA256_TLSSECRET` is offered)
and NETINFO, a non-public server sends nothing further. -/
def channel_tls_process_auth_challenge_cell_hs (env : AuthChallengeEnv) (cell : VarCell)
    (conn : OrConn) (hs : HandshakeState) : Option (OrConn × List TlsEv) :=
    if conn.state ≠ OrConnState.orHandshakingV3 then some (markAndError conn)
    else if conn.link_proto < 3 then some (markAndError conn)
    else if hs.started_here = false then some (markAndError conn)
    else if hs.received_auth_challenge = true then some (markAndError conn)
    else if hs.received_certs_cell = false then some (markAndError conn)
    else if cell.payload.length < OR_AUTH_CHALLENGE_LEN + 2 then some (markAndError conn)
    else if cell.circ_id ≠ 0 then some (markAndError conn)
    else
      let n_types := readU16 cell.payload OR_AUTH_CHALLENGE_LEN
      if cell.payload.length < OR_AUTH_CHALLENGE_LEN + 2 + 2 * n_types then
        some (markAndError conn)
      else
        let codes := (List.range n_types).map
          (fun i => readU16 cell.payload (OR_AUTH_CHALLENGE_LEN + 2 + 2 * i))
        let use_type : Bool := codes.any (fun c => c = AUTHTYPE_RSA_SHA256_TLSSECRET)
        let hs' := { hs with received_auth_challenge := true }
        let conn := { conn with handshake_state := some hs' }
        if env.public_server = false then some (conn, [])
        else if use_type then
          if env.send_authenticate_ok = false then
            some ({ conn with marked_for_close := true }, TlsEv.sendAuthenticate :: closeEvs)
          else if env.send_netinfo_ok = false then
            some ({ conn with marked_for_close := true },
                  [TlsEv.sendAuthenticate, TlsEv.sendNetinfo] ++ closeEvs)
          else some (conn, [TlsEv.sendAuthenticate, TlsEv.sendNetinfo])
        else if env.send_netinfo_ok = false then
          some ({ conn with marked_for_close := true }, TlsEv.sendNetinfo :: closeEvs)
        else some (conn, [TlsEv.sendNetinfo])

/-- Source function `channel_tls_process_auth_challenge_cell`: dereference the handshake
state (assumed non-NULL on this path) and process the cell. -/
def channel_tls_process_auth_challenge_cell (env : AuthChallengeEnv) (cell : VarCell)
    (conn : OrConn) : Option (OrConn × List TlsEv) :=
  match conn.handshake_state with
  | none => none
  | some hs => channel_tls_process_auth_challenge_cell_hs env cell conn hs

/-- Collaborator outcomes consumed by
`channel_tls_process_authenticate_cell`: whether the expected authenticator
could be computed and matched, whether the AUTH cert's RSA key could be
extracted, the `crypto_pk_public_checksig` return value, whether the signed
data equals the SHA-256 of the fixed part, and the SHA-1 identity digest of
the retained ID certificate. -/
structure AuthenticateEnv where
  compute_body_ok : Bool
  body_matches : Bool
  have_auth_key : Bool
  checksig_len : Int
  sig_matches_digest : Bool
  peer_id : List Nat

/-- Source function `channel_tls_process_authenticate_cell`: reject (mark + ERROR) unless
we are in the v3 handshake with link_proto ≥ 3 on a connection we did NOT
originate, no AUTHENTICATE was seen and the peer is not yet authenticated,
a CERTS cell supplied both the AUTH and ID certificates, and the body is a
well-formed `RSA_SHA256_TLSSECRET` authenticator matching the expectation
and carrying a valid signature; on success record authentication, stop the
handshake digest, adopt the peer identity and circuit-id parity, and re-key
the connection bookkeeping. -/
def channel_tls_process_authenticate_cell_hs (env : AuthenticateEnv) (cell : VarCell)
    (conn : OrConn) (hs : HandshakeState) : Option (OrConn × List TlsEv) :=
    if conn.state ≠ OrConnState.orHandshakingV3 then some (markAndError conn)
    else if conn.link_proto < 3 then some (markAndError conn)
    else if hs.started_here = true then some (markAndError conn)
    else if hs.received_authenticate = true then some (markAndError conn)
    else if hs.authenticated = true then some (markAndError conn)
    else if hs.received_certs_cell = false then some (markAndError conn)
    else if hs.auth_cert = false then some (markAndError conn)
    else if hs.id_cert = false then some (markAndError conn)
    else if cell.payload.length < 4 then some (markAndError conn)
    else
      let ty := readU16 cell.payload 0
      let len := readU16 cell.payload 2
      if cell.payload.length < 4 + len then some (markAndError conn)
      else if ty ≠ AUTHTYPE_RSA_SHA256_TLSSECRET then some (markAndError conn)
      else if len < V3_AUTH_BODY_LEN + 1 then some (markAndError conn)
      else if env.compute_body_ok = false then some (markAndError conn)
      else if env.body_matches = false then some (markAndError conn)
      else if env.have_auth_key = false then some (markAndError conn)
      else if env.checksig_len < 0 then some (markAndError conn)
      else if env.checksig_len < (DIGEST256_LEN : Int) then some (markAndError conn)
      else if env.sig_matches_digest = false then some (markAndError conn)
      else
        let hs' :=
          { hs with
            received_authenticate := true
            authenticated := true
            digest_received_data := false
            authenticated_peer_id := env.peer_id }
        some ({ conn with handshake_state := some hs' },
              [TlsEv.setCircidType, TlsEv.initConnFromAddress])

/-- Source function `channel_tls_process_authenticate_cell`: dereference the handshake
state (assumed non-NULL on this path) and process the cell. -/
def channel_tls_process_authenticate_cell (env : AuthenticateEnv) (cell : VarCell)
    (conn : OrConn) : Option (OrConn × List TlsEv) :=
  match conn.handshake_state with
  | none => none
  | some hs => channel_tls_process_authenticate_cell_hs env cell conn hs

/-!
Definitions taken from the specification's words, for comparison with the
source-derived definitions above, and concrete fixtures used by the
theorems below.
-/

/-- The state-transition table as written in §4.2 of the specification:
CLOSED→{LISTENING,OPENING}; OPENING→{OPEN,CLOSING,ERROR};
OPEN→{MAINT,CLOSING,ERROR}; MAINT→{OPEN,CLOSING,ERROR};
LISTENING→{CLOSING,ERROR}; CLOSING→{CLOSED,ERROR}; ERROR→nothing. -/
def spec_transition_allowed : ChannelState → ChannelState → Bool
  | .closed, .listening => true
  | .closed, .opening => true
  | .opening, .open => true
  | .opening, .closing => true
  | .opening, .error => true
  | .open, .maint => true
  | .open, .closing => true
  | .open, .error => true
  | .maint, .open => true
  | .maint, .closing => true
  | .maint, .error => true
  | .listening, .closing => true
  | .listening, .error => true
  | .closing, .closed => true
  | .closing, .error => true
  | _, _ => false

/-- Collaborator environment with the entry-guard subsystem accepting. -/
def envNoGuardReject : ChanEnv := ⟨false⟩

/-- A registered OPEN channel with no handlers, no queues, refcount 0. -/
def baseChannel : Channel :=
  { state := ChannelState.open, refcount := 0, registered := true,
    reason_for_closing := CloseReason.notClosing, initiated_remotely := false,
    cell_handler := false, var_cell_handler := false, listener := false,
    cell_queue := none, outgoing_queue := none, incoming_list := none,
    identity_digest := List.replicate DIGEST_LEN 0, nickname := none }

/-- Unregistered CLOSED channel holding one last reference. -/
def chW1 : Channel :=
  { baseChannel with state := ChannelState.closed, registered := false, refcount := 1 }

/-- Registered ERROR channel with refcount 0. -/
def chW2 : Channel := { baseChannel with state := ChannelState.error }

/-- Already-unregistered CLOSED channel with refcount 0: `channel_unregister`
is a no-op here although the free condition of the claim holds. -/
def chUnregNoop : Channel :=
  { baseChannel with state := ChannelState.closed, registered := false }

/-- A fresh handshake state: nothing received, nothing authenticated. -/
def hs0 : HandshakeState :=
  { received_versions := false, received_certs_cell := false,
    received_auth_challenge := false, received_authenticate := false,
    authenticated := false, started_here := false, auth_cert := false,
    id_cert := false, digest_received_data := true,
    authenticated_peer_id := List.replicate DIGEST_LEN 0, sent_versions_at := 0 }

/-- A v2-handshaking OR connection with no version negotiated yet. -/
def connV2Fresh : OrConn :=
  { state := OrConnState.orHandshakingV2, link_proto := 0, marked_for_close := false,
    is_canonical := false, handshake_state := some hs0 }

/-- Local version support used in the concrete runs: we know link protocols
3 and 4 (the spec's scenarios use {3,4,...}). -/
def supportedVersion : Nat → Bool := fun v => v = 3 ∨ v = 4

/-- VERSIONS-processing environment: server side (we did not start the
connection), not a public server, all sends succeed. -/
def envVersServer : VersEnv :=
  { isKnown := supportedVersion, started_here := false, public_server := false,
    send_versions_ok := true, send_certs_ok := true, send_chall_ok := true,
    send_netinfo_ok := true }

/-- VERSIONS-processing environment: client side. -/
def envVersClient : VersEnv := { envVersServer with started_here := true }

/-- A VERSIONS cell whose payload [0x00, 0x09] offers only version 9,
which we do not support. -/
def versCellNoCommon : VarCell := ⟨0, 7, [0, 9]⟩

/-- A VERSIONS cell with payload bytes [0x01, 0x00, 0x03].  Read as the
spec says — a sequence of non-overlapping big-endian u16 — it offers only
version 0x0100 = 256; but the byte-stepping loop of the source also reads
the straddling u16 at offset 1, which is 3. -/
def versCellOverlap : VarCell := ⟨0, 7, [1, 0, 3]⟩

/-- The handshake state after VERSIONS succeeds. -/
def hs0v : HandshakeState := { hs0 with received_versions := true }

/-- The connection expected after processing `versCellOverlap`. -/
def connAfterOverlap : OrConn :=
  { connV2Fresh with link_proto := 3, handshake_state := some hs0v }

/-- A freshly connected TLS channel: `channel_tls_connect` sets state
OPENING; `reason_for_closing` has never been set. -/
def chanOpeningFresh : Channel :=
  { baseChannel with state := ChannelState.opening, refcount := 1 }

/-- Handshake state of a server that has processed a valid CERTS cell and
awaits AUTHENTICATE. -/
def hsAuthPre : HandshakeState :=
  { hs0 with received_certs_cell := true, auth_cert := true, id_cert := true }

/-- The server's v3 connection awaiting AUTHENTICATE. -/
def connAuth : OrConn :=
  { state := OrConnState.orHandshakingV3, link_proto := 3, marked_for_close := false,
    is_canonical := false, handshake_state := some hsAuthPre }

/-- A well-formed AUTHENTICATE cell: type 1, body length 129. -/
def authCellOk : VarCell := ⟨0, 131, [0, 1, 0, 129] ++ List.replicate 129 0⟩

/-- Crypto collaborator outcomes under which the authenticator verifies. -/
def envAuthOk : AuthenticateEnv :=
  { compute_body_ok := true, body_matches := true, have_auth_key := true,
    checksig_len := 40, sig_matches_digest := true,
    peer_id := List.replicate DIGEST_LEN 1 }

/-- The handshake state after AUTHENTICATE succeeds. -/
def hsAuthPost : HandshakeState :=
  { hsAuthPre with
    received_authenticate := true
    authenticated := true
    digest_received_data := false }

/-- Connection after the successful AUTHENTICATE. -/
def connAuthPost : OrConn :=
  { connAuth with
    handshake_state := some { hsAuthPost with authenticated_peer_id := List.replicate DIGEST_LEN 1 } }

/-- Handshake state of a client that received CERTS and now gets
AUTH_CHALLENGE. -/
def hsChallPre : HandshakeState :=
  { hs0 with started_here := true, received_certs_cell := true }

/-- The client's v3 connection awaiting AUTH_CHALLENGE. -/
def connChall : OrConn :=
  { state := OrConnState.orHandshakingV3, link_proto := 3, marked_for_close := false,
    is_canonical := false, handshake_state := some hsChallPre }

/-- A well-formed AUTH_CHALLENGE cell offering the single method
`RSA_SHA256_TLSSECRET`. -/
def challCellOk : VarCell := ⟨0, 130, List.replicate OR_AUTH_CHALLENGE_LEN 0 ++ [0, 1, 0, 1]⟩

/-- AUTH_CHALLENGE environment: we are not a public server, so nothing is
sent in response. -/
def envChallOk : AuthChallengeEnv :=
  { public_server := false, send_authenticate_ok := true, send_netinfo_ok := true }

/-- Handshake state after the challenge is recorded. -/
def hsChallPost : HandshakeState := { hsChallPre with received_auth_challenge := true }

/-- Connection after the AUTH_CHALLENGE is processed. -/
def connChallPost : OrConn := { connChall with handshake_state := some hsChallPost }

/-- Handshake state of an authenticated client about to process NETINFO. -/
def hsNetiPre : HandshakeState :=
  { hs0 with received_versions := true, started_here := true, authenticated := true }

/-- The client's v3 connection awaiting NETINFO. -/
def connNeti : OrConn :=
  { state := OrConnState.orHandshakingV3, link_proto := 3, marked_for_close := false,
    is_canonical := false, handshake_state := some hsNetiPre }

/-- A NETINFO cell: timestamp 0, a 4-byte my-address record, zero "other"
addresses. -/
def netiCellOk : Cell := ⟨0, 8, [0, 0, 0, 0, 4, 4, 9, 9, 9, 9, 0]⟩

/-- NETINFO environment: no skew, peer unknown, opening the connection
succeeds. -/
def envNetiOk : NetinfoEnv :=
  { now := 0, routerKnown := false, trustedDir := false,
    decodeAddr := fun _ => none, realAddrMatches := fun _ => false,
    set_state_open_ok := true }

/-- A channel stuck in ERROR (terminal). -/
def chErrState : Channel := { baseChannel with state := ChannelState.error, refcount := 1 }

/-- An inbound variable-length cell used in the dispatch runs. -/
def vCell6 : VarCell := ⟨0, 128, [5]⟩

/-- OPEN channel, empty inbound queue, ONLY the variable-cell handler
installed. -/
def chVarOnly : Channel := { baseChannel with var_cell_handler := true }

/-- OPEN channel, empty inbound queue, both handlers installed. -/
def chBothHandlers : Channel := { chVarOnly with cell_handler := true }

/-- Enqueued fixed cells and variable cell of the late-bound handler
scenario. -/
def cellA : Cell := ⟨1, 3, []⟩

/-- Second queued fixed cell of the scenario. -/
def cellB : Cell := ⟨2, 3, []⟩

/-- The queued variable cell of the scenario. -/
def vCellC : VarCell := ⟨0, 7, [3, 4]⟩

/-- OPEN channel with both handler slots NULL and the queue holding two
fixed cells then one variable cell. -/
def chQueued3 : Channel :=
  { baseChannel with
    cell_queue := some [QEntry.fixed cellA, QEntry.fixed cellB, QEntry.var vCellC] }

/-- Channel `chQueued3` after the variable-cell handler is installed. -/
def chQueued3v : Channel := { chQueued3 with var_cell_handler := true }

/-- The inbound cell still queued when the channel of the C8 run is freed. -/
def cell8 : Cell := ⟨9, 3, []⟩

/-- Registered OPEN channel, refcount 0, one undispatched inbound cell. -/
def chOpenQueued : Channel := { baseChannel with cell_queue := some [QEntry.fixed cell8] }

/-- The same channel after `channel_close_for_error`. -/
def chClosingQueued : Channel :=
  { chOpenQueued with
    reason_for_closing := CloseReason.forError
    state := ChannelState.closing }

/-- The same channel after `channel_closed` drives it to ERROR. -/
def chErrorQueued : Channel := { chClosingQueued with state := ChannelState.error }

/-- A LISTENING channel with a listener callback and no backlog. -/
def lsDirect : Channel :=
  { baseChannel with state := ChannelState.listening, listener := true }

/-- An incoming child whose creator never set `initiated_remotely`. -/
def childUnset : Child := ⟨ChannelState.opening, false⟩

/-- An incoming child with `initiated_remotely` already set. -/
def childSet : Child := ⟨ChannelState.opening, true⟩

/-- A LISTENING channel with one backlogged child. -/
def lsBacklog : Channel := { lsDirect with incoming_list := some [childUnset] }

/-- A channel in MAINT state (inbound queueing is not allowed there). -/
def chNotOpen : Channel := { baseChannel with state := ChannelState.maint }

/-- A fixed cell for the C10 witness run. -/
def cell10 : Cell := ⟨4, 3, []⟩

/-- A variable cell for the C10 witness run. -/
def vCell10 : VarCell := ⟨0, 7, []⟩

/-!
Claim theorems.
-/

/-- C5: `channel_state_can_transition` returns true exactly on the pairs of
the §4.2 transition table, and `channel_change_state` refuses (assertion,
no mutation of the passed state) every transition outside the table. -/
theorem claim_c5_thm :
    (∀ f t, channel_state_can_transition f t = spec_transition_allowed f t) ∧
    (∀ (env : ChanEnv) (ch : Channel) (t : ChannelState),
       channel_state_can_transition ch.state t = false →
       channel_change_state env ch t = none) := by
  constructor
  · intro f t
    cases f <;> cases t <;> rfl
  · intro env ch t h
    unfold channel_change_state
    simp [channel_state_is_valid, h]

/-- C5 witness: the table bans ERROR → OPEN, and `channel_change_state`
refuses it on a concrete ERROR channel. -/
theorem claim_c5_witness :
    channel_state_can_transition chErrState.state ChannelState.open = false ∧
    channel_change_state envNoGuardReject chErrState ChannelState.open = none :=
  ⟨by decide, claim_c5_thm.2 envNoGuardReject chErrState ChannelState.open (by decide)⟩

/-- C10: `channel_queue_cell` and `channel_queue_var_cell` assert state
OPEN on entry; queueing an inbound cell on a channel in any other state is
an assertion failure. -/
theorem claim_c10_thm :
    ∀ (ch : Channel) (c : Cell) (v : VarCell),
      ch.state ≠ ChannelState.open →
      channel_queue_cell ch c = none ∧ channel_queue_var_cell ch v = none := by
  intro ch c v h
  constructor
  · unfold channel_queue_cell
    simp [h]
  · unfold channel_queue_var_cell
    simp [h]

/-- C10 witness: queueing on a MAINT channel trips the assertion. -/
theorem claim_c10_witness :
    channel_queue_cell chNotOpen cell10 = none ∧
    channel_queue_var_cell chNotOpen vCell10 = none :=
  claim_c10_thm chNotOpen cell10 vCell10 (by decide)

/-- C1 counterexample: on an already-unregistered CLOSED channel with
refcount 0, `channel_unregister` is a no-op and does NOT free, although
the claim's condition (refcount 0 and terminal state) holds, so the
claimed "iff" is false for this channel. -/
theorem claim_c1_counterexample :
    chUnregNoop.refcount = 0 ∧ isTerminal chUnregNoop.state = true ∧
    chUnregNoop.registered = false ∧
    channel_unregister chUnregNoop = some (UnrefRes.live chUnregNoop) ∧
    ¬(channel_unregister chUnregNoop = some UnrefRes.freed ↔
      (chUnregNoop.refcount = 0 ∧ isTerminal chUnregNoop.state = true)) := by
  decide

/-- C1 (amended): `channel_unref` requires a positive refcount, decrements
it, and invokes `channel_free` exactly when after the decrement the
refcount is 0, the channel is unregistered and the state is CLOSED or
ERROR; `channel_unregister` ON A REGISTERED CHANNEL clears `registered` and
frees iff the refcount is 0 and the state is CLOSED or ERROR, while on an
already-unregistered channel it is a no-op and never frees. -/
theorem claim_c1_thm :
    (∀ ch : Channel, 0 < ch.refcount →
       (channel_unref ch = some UnrefRes.freed ↔
         (ch.refcount - 1 = 0 ∧ ch.registered = false ∧ isTerminal ch.state = true)) ∧
       (¬(ch.refcount - 1 = 0 ∧ ch.registered = false ∧ isTerminal ch.state = true) →
         channel_unref ch = some (UnrefRes.live { ch with refcount := ch.refcount - 1 }))) ∧
    (∀ ch : Channel, ch.registered = true →
       (channel_unregister ch = some UnrefRes.freed ↔
         (ch.refcount = 0 ∧ isTerminal ch.state = true)) ∧
       (¬(ch.refcount = 0 ∧ isTerminal ch.state = true) →
         channel_unregister ch = some (UnrefRes.live { ch with registered := false }))) ∧
    (∀ ch : Channel, ch.registered = false →
       channel_unregister ch = some (UnrefRes.live ch)) := by
  refine ⟨?_, ?_, ?_⟩
  · intro ch hpos
    have hne : ¬(ch.refcount = 0) := by omega
    by_cases hc : ch.refcount - 1 = 0 ∧ ch.registered = false ∧ isTerminal ch.state = true
    · refine ⟨?_, fun h => absurd hc h⟩
      simp [channel_unref, channel_free, hne, hc, hc.1, hc.2.1, hc.2.2]
    · refine ⟨?_, fun _ => ?_⟩ <;>
        simp [channel_unref, channel_free, hne, hc]
  · intro ch hreg
    have hne : ¬(ch.registered = false) := by simp [hreg]
    by_cases hc : ch.refcount = 0 ∧ isTerminal ch.state = true
    · refine ⟨?_, fun h => absurd hc h⟩
      simp [channel_unregister, channel_free, hne, hc, hc.1, hc.2]
    · refine ⟨?_, fun _ => ?_⟩ <;>
        simp [channel_unregister, channel_free, hne, hc]
  · intro ch hreg
    unfold channel_unregister
    rw [if_pos hreg]

/-- C1 witness: `channel_unref` frees the last reference to an
unregistered CLOSED channel, and `channel_unregister` frees a registered
refcount-0 ERROR channel. -/
theorem claim_c1_witness :
    channel_unref chW1 = some UnrefRes.freed ∧
    channel_unregister chW2 = some UnrefRes.freed :=
  ⟨((claim_c1_thm.1 chW1 (by decide)).1).mpr (by decide),
   ((claim_c1_thm.2.1 chW2 (by decide)).1).mpr (by decide)⟩

/-- C2 (code defect): on a VERSIONS cell with no version in common the
engine does mark the TLS connection for close and emits the transition to
ERROR — but it never sets `reason_for_closing`, and on the freshly
connected channel (state OPENING, reason still NOT_CLOSING) the emitted
`channel_change_state(ERROR)` call trips the reason-for-closing assertion
of `channel_change_state`. -/
theorem claim_c2_eval :
    channel_tls_process_versions_cell envVersServer versCellNoCommon connV2Fresh =
      some ({ connV2Fresh with marked_for_close := true },
            [TlsEv.markForClose, TlsEv.chanChangeState ChannelState.error]) ∧
    chanOpeningFresh.reason_for_closing = CloseReason.notClosing ∧
    channel_state_can_transition chanOpeningFresh.state ChannelState.error = true ∧
    channel_change_state envNoGuardReject chanOpeningFresh ChannelState.error = none := by
  decide

/-- C3 counterexample: the payload bytes [0x01, 0x00, 0x03] read as the
claimed sequence of u16 versions offer only version 256 — no version in
common, so the claim demands a close — yet the code's byte-stepping scan
also reads the straddling u16 value 3, accepts it, sets `link_proto := 3`
and `received_versions` and does not close the connection. -/
theorem claim_c3_counterexample :
    specHighestVersion supportedVersion versCellOverlap.payload = 0 ∧
    channel_tls_process_versions_cell envVersClient versCellOverlap connV2Fresh =
      some (connAfterOverlap, []) ∧
    connAfterOverlap.link_proto = 3 ∧
    connAfterOverlap.marked_for_close = false ∧
    (connAfterOverlap.handshake_state.elim false HandshakeState.received_versions) = true := by
  decide

/-- C6 (code defect): with the inbound queue empty and the variable-cell
handler installed, the direct-dispatch path of `channel_queue_var_cell`
asserts the FIXED-cell handler slot, so with `cell_handler == NULL` the
call is an assertion failure instead of the claimed dispatch; when the
fixed handler happens to be set too, the variable handler is invoked
synchronously, bracketed by ref/unref. -/
theorem claim_c6_eval :
    channel_queue_var_cell chVarOnly vCell6 = none ∧
    channel_queue_var_cell chBothHandlers vCell6 =
      some (chBothHandlers, [Ev.evRef, Ev.evVarHandler vCell6, Ev.evUnref]) := by
  decide

/-- C7 counterexample: two fixed cells and one variable cell are queued
with both handler slots NULL; installing only the variable-cell handler
dispatches NOTHING — the drain stops at the first fixed cell — leaving all
three cells queued, contradicting the claim that the variable cell is
dispatched. -/
theorem claim_c7_counterexample :
    channel_set_var_cell_handler chQueued3 true =
      some (chQueued3v, [Ev.evRef, Ev.evUnref]) ∧
    chQueued3v.cell_queue =
      some [QEntry.fixed cellA, QEntry.fixed cellB, QEntry.var vCellC] ∧
    Ev.evVarHandler vCellC ∉ [Ev.evRef, Ev.evUnref] := by
  decide

/-- C8 (code defect): a registered OPEN channel with refcount 0 and one
queued inbound cell is driven through `channel_close_for_error` and
`channel_closed` into ERROR (entry to ERROR has no queue assertions) and is
then freed by `channel_unregister` while its inbound queue is still
non-empty: `channel_free` checks terminal state, registration and refcount
but none of the queues. -/
theorem claim_c8_eval :
    channel_close_for_error envNoGuardReject chOpenQueued = some (chClosingQueued, []) ∧
    channel_closed envNoGuardReject chClosingQueued =
      some (chErrorQueued, [Ev.evCircNChanDone 0, Ev.evUnlinkAllCircuits]) ∧
    chErrorQueued.cell_queue = some [QEntry.fixed cell8] ∧
    queueNonempty chErrorQueued.cell_queue = true ∧
    channel_unregister chErrorQueued = some UnrefRes.freed := by
  decide

/-- C9 counterexample: a child whose creator left `initiated_remotely`
false is dispatched DIRECTLY by `channel_queue_incoming` (listener
installed, no backlog) and the listener callback observes
`initiated_remotely = false`: only the backlog-draining path forces the
flag to true. -/
theorem claim_c9_counterexample :
    childUnset.initiated_remotely = false ∧
    channel_queue_incoming lsDirect childUnset =
      some (lsDirect, [Ev.evRef, Ev.evRefChild, Ev.evListener false,
                       Ev.evUnrefChild, Ev.evUnref]) ∧
    Ev.evListener false ∈
      [Ev.evRef, Ev.evRefChild, Ev.evListener false, Ev.evUnrefChild, Ev.evUnref] := by
  decide

/-- C7 (amended): on an OPEN channel whose queue starts with a fixed cell
while both handler slots are NULL, installing only the variable-cell
handler dispatches NOTHING — `channel_process_cells` stops at the first
queued fixed cell, for which no handler is installed — and the whole queue
(fixed cells followed by the variable cell) is left in its original
order. -/
theorem claim_c7_thm :
    ∀ (ch : Channel) (c : Cell) (rest : List QEntry),
      ch.state = ChannelState.open →
      ch.cell_handler = false →
      ch.var_cell_handler = false →
      ch.cell_queue = some (QEntry.fixed c :: rest) →
      ∃ ch', channel_set_var_cell_handler ch true = some (ch', [Ev.evRef, Ev.evUnref]) ∧
        ch'.cell_queue = some (QEntry.fixed c :: rest) ∧
        ch'.var_cell_handler = true := by
  intro ch c rest hst hch hvh hq
  unfold channel_set_var_cell_handler channel_process_cells channel_ref channel_unref
    drainCells
  simp [hst, hch, hvh, hq, queueNonempty, isTerminal, channel_free]

/-- C7 witness: the scenario's queue (two fixed cells, then the variable
cell) survives installing the variable handler untouched. -/
theorem claim_c7_witness :
    ∃ ch', channel_set_var_cell_handler chQueued3 true =
      some (ch', [Ev.evRef, Ev.evUnref]) ∧
      ch'.cell_queue = some (QEntry.fixed cellA :: [QEntry.fixed cellB, QEntry.var vCellC]) ∧
      ch'.var_cell_handler = true :=
  claim_c7_thm chQueued3 cellA [QEntry.fixed cellB, QEntry.var vCellC] rfl rfl rfl rfl

/-- Every callback event produced while draining a listener backlog
carries `initiated_remotely = true`. -/
theorem listenerBacklogEvs_all (l : List Child) :
    ((l.flatMap fun _ => [Ev.evRefChild, Ev.evListener true, Ev.evUnrefChild]).all
      fun e => match e with
        | Ev.evListener b => b
        | _ => true) = true := by
  induction l with
  | nil => rfl
  | cons a t ih => simp [List.flatMap_cons, List.all_append, ih]

/-- C9 (amended): children drained by `channel_process_incoming` always
reach the listener callback with `initiated_remotely` forced to true (every
`evListener` event of a successful run carries `true`); but a child
dispatched DIRECTLY by `channel_queue_incoming` (listener installed, no
backlog) reaches the callback with whatever `initiated_remotely` value its
creator left on it. -/
theorem claim_c9_thm :
    (∀ (l : Channel) (res : Channel × List Ev),
       channel_process_incoming l = some res →
       (res.2.all fun e => match e with
         | Ev.evListener b => b
         | _ => true) = true) ∧
    (∀ (l : Channel) (c : Child),
       l.state = ChannelState.listening →
       c.state ≠ ChannelState.listening →
       l.listener = true →
       incomingNonempty l.incoming_list = false →
       ∃ l', channel_queue_incoming l c =
         some (l', [Ev.evRef, Ev.evRefChild, Ev.evListener c.initiated_remotely,
                    Ev.evUnrefChild, Ev.evUnref])) := by
  constructor
  · intro l res h
    unfold channel_process_incoming at h
    split_ifs at h with hA hB
    split at h
    · cases h
      rfl
    · simp only [channel_ref, channel_unref, channel_free] at h
      rcases hA with hA | hA <;>
        · simp only [hA, isTerminal] at h
          simp at h
          simp [← h, List.all_append, listenerBacklogEvs_all]
  · intro l c hls hcs hcb hnb
    unfold channel_queue_incoming channel_ref channel_unref
    simp [hls, hcs, hcb, hnb, isTerminal, channel_free]

/-- C9 witness: draining a backlogged child (whose flag was false) yields
only `evListener true` events, while direct dispatch of a flag-true child
passes `true` through. -/
theorem claim_c9_witness :
    (([Ev.evRef, Ev.evRefChild, Ev.evListener true, Ev.evUnrefChild, Ev.evUnref].all
       fun e => match e with
         | Ev.evListener b => b
         | _ => true) = true) ∧
    (∃ l', channel_queue_incoming lsDirect childSet =
       some (l', [Ev.evRef, Ev.evRefChild, Ev.evListener childSet.initiated_remotely,
                  Ev.evUnrefChild, Ev.evUnref])) :=
  ⟨claim_c9_thm.1 lsBacklog
     ({ lsBacklog with incoming_list := none },
      [Ev.evRef, Ev.evRefChild, Ev.evListener true, Ev.evUnrefChild, Ev.evUnref])
     (by decide),
   claim_c9_thm.2 lsDirect childSet rfl (by decide) rfl (by decide)⟩

/-- A failing send only marks the connection for close: the version and
handshake fields recorded before the send sequence survive it. -/
theorem trySends_fields (l : List (Bool × TlsEv × Bool)) :
    ∀ conn : OrConn, (trySends conn l).1.link_proto = conn.link_proto ∧
      (trySends conn l).1.handshake_state = conn.handshake_state := by
  induction l with
  | nil =>
    intro conn
    exact ⟨rfl, rfl⟩
  | cons x xs ih =>
    intro conn
    obtain ⟨doIt, ev, ok⟩ := x
    unfold trySends
    by_cases hd : doIt = true
    · by_cases hk : ok = true
      · simpa [hd, hk] using ih conn
      · simp [hd, hk]
    · simpa [hd] using ih conn

/-- C3 (amended): under the stated preconditions (`link_proto == 0`, no
VERSIONS received, connection sub-state handshaking_v2/v3), the processor
selects the highest supported u16 read at EVERY BYTE OFFSET of the payload
(overlapping reads, see `highestKnown`), closes the connection and moves
the channel to ERROR when nothing usable is found, when 1 is selected, or
when the selection is below 3 after a v3 TLS handshake, and otherwise
records the selection in `link_proto` and sets `received_versions`. -/
theorem claim_c3_thm :
    ∀ (env : VersEnv) (cell : VarCell) (conn : OrConn) (hs : HandshakeState),
      conn.link_proto = 0 →
      conn.handshake_state = some hs →
      hs.received_versions = false →
      (conn.state = OrConnState.orHandshakingV2 ∨ conn.state = OrConnState.orHandshakingV3) →
      ((highestKnown env.isKnown cell.payload = 0 ∨
        highestKnown env.isKnown cell.payload = 1 ∨
        (highestKnown env.isKnown cell.payload < 3 ∧
         conn.state = OrConnState.orHandshakingV3)) →
        channel_tls_process_versions_cell env cell conn =
          some ({ conn with marked_for_close := true }, closeEvs)) ∧
      (¬(highestKnown env.isKnown cell.payload = 0 ∨
         highestKnown env.isKnown cell.payload = 1 ∨
         (highestKnown env.isKnown cell.payload < 3 ∧
          conn.state = OrConnState.orHandshakingV3)) →
        ∃ conn' evs, channel_tls_process_versions_cell env cell conn = some (conn', evs) ∧
          conn'.link_proto = highestKnown env.isKnown cell.payload ∧
          ∃ hs', conn'.handshake_state = some hs' ∧ hs'.received_versions = true) := by
  intro env cell conn hs h0 hhs hrv hstate
  constructor
  · intro hbad
    unfold channel_tls_process_versions_cell
    rw [hhs]
    by_cases hb0 : highestKnown env.isKnown cell.payload = 0
    · simp [h0, hhs, hrv, hstate, hb0, markAndError]
    · by_cases hb1 : highestKnown env.isKnown cell.payload = 1
      · simp [h0, hhs, hrv, hstate, hb0, hb1, markAndError]
      · have hb3 : highestKnown env.isKnown cell.payload < 3 ∧
            conn.state = OrConnState.orHandshakingV3 := by
          rcases hbad with h | h | h
          · exact absurd h hb0
          · exact absurd h hb1
          · exact h
        simp [h0, hhs, hrv, hstate, hb0, hb1, hb3, markAndError]
  · intro hok
    push_neg at hok
    obtain ⟨hb0, hb1, hb3⟩ := hok
    unfold channel_tls_process_versions_cell
    rw [hhs]
    by_cases hb2 : highestKnown env.isKnown cell.payload = 2
    · have hnv3 : conn.state ≠ OrConnState.orHandshakingV3 := hb3 (by omega)
      have hv2 : conn.state = OrConnState.orHandshakingV2 := hstate.resolve_right hnv3
      by_cases hsend : env.send_netinfo_ok = true
      · refine ⟨{ conn with
            link_proto := highestKnown env.isKnown cell.payload
            handshake_state := some { hs with received_versions := true } },
          [TlsEv.sendNetinfo], ?_, rfl,
          ⟨{ hs with received_versions := true }, rfl, rfl⟩⟩
        simp [h0, hhs, hrv, hstate, hb0, hb1, hb2, hnv3, hv2, hsend, markAndError]
      · refine ⟨{ conn with
            link_proto := highestKnown env.isKnown cell.payload
            marked_for_close := true
            handshake_state := some { hs with received_versions := true } },
          TlsEv.sendNetinfo :: closeEvs, ?_, rfl,
          ⟨{ hs with received_versions := true }, rfl, rfl⟩⟩
        simp [h0, hhs, hrv, hstate, hb0, hb1, hb2, hnv3, hv2, hsend, markAndError]
    · have hge3 : ¬(highestKnown env.isKnown cell.payload < 3) := by omega
      have hnc : ¬(highestKnown env.isKnown cell.payload < 3 ∧
          conn.state = OrConnState.orHandshakingV3) := fun hc => hge3 hc.1
      refine ⟨(trySends
          { conn with
            link_proto := highestKnown env.isKnown cell.payload
            handshake_state := some { hs with received_versions := true } }
          [(!env.started_here, TlsEv.sendVersions, env.send_versions_ok),
           (!env.started_here || env.public_server, TlsEv.sendCerts, env.send_certs_ok),
           (!env.started_here && env.public_server, TlsEv.sendAuthChallenge,
            env.send_chall_ok),
           (!env.started_here, TlsEv.sendNetinfo, env.send_netinfo_ok)]).1,
        (trySends
          { conn with
            link_proto := highestKnown env.isKnown cell.payload
            handshake_state := some { hs with received_versions := true } }
          [(!env.started_here, TlsEv.sendVersions, env.send_versions_ok),
           (!env.started_here || env.public_server, TlsEv.sendCerts, env.send_certs_ok),
           (!env.started_here && env.public_server, TlsEv.sendAuthChallenge,
            env.send_chall_ok),
           (!env.started_here, TlsEv.sendNetinfo, env.send_netinfo_ok)]).2, ?_, ?_, ?_⟩
      · simp [h0, hhs, hrv, hstate, hb0, hb1, hb2, hnc, hge3]
      · simpa using (trySends_fields _ _).1
      · exact ⟨{ hs with received_versions := true }, by simpa using (trySends_fields _ _).2,
          rfl⟩

/-- C3 witness: the no-usable-version payload closes the connection, and
the overlapping-scan payload negotiates successfully. -/
theorem claim_c3_witness :
    channel_tls_process_versions_cell envVersServer versCellNoCommon connV2Fresh =
      some ({ connV2Fresh with marked_for_close := true }, closeEvs) ∧
    (∃ conn' evs, channel_tls_process_versions_cell envVersClient versCellOverlap connV2Fresh =
       some (conn', evs) ∧
       conn'.link_proto = highestKnown envVersClient.isKnown versCellOverlap.payload ∧
       ∃ hs', conn'.handshake_state = some hs' ∧ hs'.received_versions = true) :=
  ⟨(claim_c3_thm envVersServer versCellNoCommon connV2Fresh hs0 rfl rfl rfl
      (by decide)).1 (by decide),
   (claim_c3_thm envVersClient versCellOverlap connV2Fresh hs0 rfl rfl rfl
      (by decide)).2 (by decide)⟩

/-- Dereferencing the handshake state reduces the AUTHENTICATE processor
to its body. -/
theorem channel_tls_process_authenticate_cell_some (env : AuthenticateEnv) (cell : VarCell)
    (conn : OrConn) (hs : HandshakeState) (hhs : conn.handshake_state = some hs) :
    channel_tls_process_authenticate_cell env cell conn =
      channel_tls_process_authenticate_cell_hs env cell conn hs := by
  unfold channel_tls_process_authenticate_cell
  rw [hhs]

/-- Dereferencing the handshake state reduces the AUTH_CHALLENGE processor
to its body. -/
theorem channel_tls_process_auth_challenge_cell_some (env : AuthChallengeEnv) (cell : VarCell)
    (conn : OrConn) (hs : HandshakeState) (hhs : conn.handshake_state = some hs) :
    channel_tls_process_auth_challenge_cell env cell conn =
      channel_tls_process_auth_challenge_cell_hs env cell conn hs := by
  unfold channel_tls_process_auth_challenge_cell
  rw [hhs]

/-- Dereferencing the handshake state reduces the NETINFO processor to the
early drops followed by its body. -/
theorem channel_tls_process_netinfo_cell_some (env : NetinfoEnv) (cell : Cell)
    (conn : OrConn) (hs : HandshakeState) (hhs : conn.handshake_state = some hs) :
    channel_tls_process_netinfo_cell env cell conn =
      (if conn.link_proto < 2 then some (conn, [])
       else if ¬(conn.state = OrConnState.orHandshakingV2 ∨
                 conn.state = OrConnState.orHandshakingV3) then some (conn, [])
       else channel_tls_process_netinfo_cell_hs env cell conn hs) := by
  unfold channel_tls_process_netinfo_cell
  rw [hhs]

/-- Without a prior CERTS cell, the AUTHENTICATE processor rejects: every
guard up to and including the CERTS check ends in the same mark-and-ERROR
result. -/
theorem authenticate_no_certs (env : AuthenticateEnv) (cell : VarCell) (conn : OrConn)
    (hs : HandshakeState) (hcc : hs.received_certs_cell = false) :
    channel_tls_process_authenticate_cell_hs env cell conn hs = some (markAndError conn) := by
  unfold channel_tls_process_authenticate_cell_hs
  simp [hcc]

/-- Without a prior CERTS cell, the AUTH_CHALLENGE processor rejects the
same way. -/
theorem auth_challenge_no_certs (env : AuthChallengeEnv) (cell : VarCell) (conn : OrConn)
    (hs : HandshakeState) (hcc : hs.received_certs_cell = false) :
    channel_tls_process_auth_challenge_cell_hs env cell conn hs =
      some (markAndError conn) := by
  unfold channel_tls_process_auth_challenge_cell_hs
  simp [hcc]

/-- Without prior VERSIONS, the NETINFO body trips the handshake-state
assertion. -/
theorem netinfo_no_versions (env : NetinfoEnv) (cell : Cell) (conn : OrConn)
    (hs : HandshakeState) (hrv : hs.received_versions = false) :
    channel_tls_process_netinfo_cell_hs env cell conn hs = none := by
  unfold channel_tls_process_netinfo_cell_hs
  simp [hrv]

/-- A v3 NETINFO with a sub-3 link protocol trips the internal assertion. -/
theorem netinfo_v3_low_link (env : NetinfoEnv) (cell : Cell) (conn : OrConn)
    (hs : HandshakeState) (hrv : hs.received_versions = true)
    (hst : conn.state = OrConnState.orHandshakingV3) (hlk : conn.link_proto < 3) :
    channel_tls_process_netinfo_cell_hs env cell conn hs = none := by
  unfold channel_tls_process_netinfo_cell_hs
  simp [hrv, hst, hlk]

/-- A v3 NETINFO reaching an unauthenticated client closes the connection
and moves the channel to ERROR. -/
theorem netinfo_client_unauth (env : NetinfoEnv) (cell : Cell) (conn : OrConn)
    (hs : HandshakeState) (hrv : hs.received_versions = true)
    (hst : conn.state = OrConnState.orHandshakingV3) (hsh : hs.started_here = true)
    (hA : hs.authenticated = false) (hlk : ¬(conn.link_proto < 3)) :
    channel_tls_process_netinfo_cell_hs env cell conn hs = some (markAndError conn) := by
  unfold channel_tls_process_netinfo_cell_hs
  simp [hrv, hst, hsh, hA, hlk]

/-- C4: AUTHENTICATE advances (`received_authenticate` becomes set) only if
a CERTS cell was received before; AUTH_CHALLENGE advances
(`received_auth_challenge` becomes set) only if a CERTS cell was received
before; and NETINFO is accepted (the connection is marked open) only if
VERSIONS was received before and, on a v3 client connection, only if the
peer was already authenticated.  A violating cell is rejected without
advancing the handshake state. -/
theorem claim_c4_thm :
    (∀ (env : AuthenticateEnv) (cell : VarCell) (conn conn' : OrConn)
       (hs hs' : HandshakeState) (evs : List TlsEv),
       conn.handshake_state = some hs →
       channel_tls_process_authenticate_cell env cell conn = some (conn', evs) →
       conn'.handshake_state = some hs' →
       hs'.received_authenticate = true →
       hs.received_authenticate = false →
       hs.received_certs_cell = true) ∧
    (∀ (env : AuthChallengeEnv) (cell : VarCell) (conn conn' : OrConn)
       (hs hs' : HandshakeState) (evs : List TlsEv),
       conn.handshake_state = some hs →
       channel_tls_process_auth_challenge_cell env cell conn = some (conn', evs) →
       conn'.handshake_state = some hs' →
       hs'.received_auth_challenge = true →
       hs.received_auth_challenge = false →
       hs.received_certs_cell = true) ∧
    (∀ (env : NetinfoEnv) (cell : Cell) (conn conn' : OrConn)
       (hs : HandshakeState) (evs : List TlsEv),
       conn.handshake_state = some hs →
       channel_tls_process_netinfo_cell env cell conn = some (conn', evs) →
       TlsEv.setStateOpen ∈ evs →
       hs.received_versions = true ∧
       (conn.state = OrConnState.orHandshakingV3 → hs.started_here = true →
        hs.authenticated = true)) := by
  refine ⟨?_, ?_, ?_⟩
  · intro env cell conn conn' hs hs' evs hhs h hhs' h1 h0
    cases hcc : hs.received_certs_cell
    · exfalso
      rw [channel_tls_process_authenticate_cell_some env cell conn hs hhs,
          authenticate_no_certs env cell conn hs hcc] at h
      injection h with h2
      have hc : ({ conn with marked_for_close := true } : OrConn) = conn' :=
        congrArg Prod.fst h2
      have hh := congrArg OrConn.handshake_state hc
      rw [hhs', hhs] at hh
      have hh2 : some hs = some hs' := hh
      injection hh2 with hhh
      rw [← hhh, h0] at h1
      simp at h1
    · rfl
  · intro env cell conn conn' hs hs' evs hhs h hhs' h1 h0
    cases hcc : hs.received_certs_cell
    · exfalso
      rw [channel_tls_process_auth_challenge_cell_some env cell conn hs hhs,
          auth_challenge_no_certs env cell conn hs hcc] at h
      injection h with h2
      have hc : ({ conn with marked_for_close := true } : OrConn) = conn' :=
        congrArg Prod.fst h2
      have hh := congrArg OrConn.handshake_state hc
      rw [hhs', hhs] at hh
      have hh2 : some hs = some hs' := hh
      injection hh2 with hhh
      rw [← hhh, h0] at h1
      simp at h1
    · rfl
  · intro env cell conn conn' hs evs hhs h hmem
    rw [channel_tls_process_netinfo_cell_some env cell conn hs hhs] at h
    by_cases hd1 : conn.link_proto < 2
    · exfalso
      rw [if_pos hd1] at h
      injection h with h2
      have he : ([] : List TlsEv) = evs := congrArg Prod.snd h2
      rw [← he] at hmem
      simp at hmem
    · rw [if_neg hd1] at h
      by_cases hd2 : ¬(conn.state = OrConnState.orHandshakingV2 ∨
          conn.state = OrConnState.orHandshakingV3)
      · exfalso
        rw [if_pos hd2] at h
        injection h with h2
        have he : ([] : List TlsEv) = evs := congrArg Prod.snd h2
        rw [← he] at hmem
        simp at hmem
      · rw [if_neg hd2] at h
        cases hrv : hs.received_versions
        · exfalso
          rw [netinfo_no_versions env cell conn hs hrv] at h
          exact Option.noConfusion h
        · refine ⟨rfl, ?_⟩
          intro hst3 hsh
          cases hA : hs.authenticated
          · exfalso
            by_cases hlk : conn.link_proto < 3
            · rw [netinfo_v3_low_link env cell conn hs hrv hst3 hlk] at h
              exact Option.noConfusion h
            · rw [netinfo_client_unauth env cell conn hs hrv hst3 hsh hA hlk] at h
              injection h with h2
              have he : closeEvs = evs := congrArg Prod.snd h2
              rw [← he] at hmem
              simp [closeEvs] at hmem
          · rfl

set_option maxRecDepth 8192 in
/-- C4 witness: concrete successful AUTHENTICATE, AUTH_CHALLENGE and
NETINFO runs instantiate the ordering theorem. -/
theorem claim_c4_witness :
    hsAuthPre.received_certs_cell = true ∧
    hsChallPre.received_certs_cell = true ∧
    (hsNetiPre.received_versions = true ∧
     (connNeti.state = OrConnState.orHandshakingV3 → hsNetiPre.started_here = true →
      hsNetiPre.authenticated = true)) :=
  ⟨claim_c4_thm.1 envAuthOk authCellOk connAuth connAuthPost hsAuthPre
     { hsAuthPost with authenticated_peer_id := List.replicate DIGEST_LEN 1 }
     [TlsEv.setCircidType, TlsEv.initConnFromAddress]
     rfl (by decide) rfl (by decide) (by decide),
   claim_c4_thm.2.1 envChallOk challCellOk connChall connChallPost hsChallPre hsChallPost
     [] rfl (by decide) rfl (by decide) (by decide),
   claim_c4_thm.2.2 envNetiOk netiCellOk connNeti
     { connNeti with state := OrConnState.connOpen } hsNetiPre [TlsEv.setStateOpen]
     rfl (by decide) (by decide)⟩
